import Mathlib

/-!
Verification development for the SmooAI fetch library (src/fetch.ts).

The development shallowly embeds the response-materialization step
(`doGlobalFetch`), the error taxonomy (`HTTPResponseError`, `RetryError`,
the mollitia error classes), the default retry predicates
(`DEFAULT_RETRY_OPTIONS.onRejection`, `DEFAULT_RATE_LIMIT_RETRY_OPTIONS.onRejection`),
the error-classification path of `doFetch` (post-response-error hook and
`RetryError` wrapping), the module lists built by `prepareCircuitModules`
and `prepareFetchContainerModules`, and the `RequestInit` merge performed
by `doGlobalFetch`.

JavaScript dynamic values are modelled by the inductive `JValue`; JS
truthiness, property access, `Array.isArray`, `typeof x === "string"` and
string interpolation are modelled by `jsTruthy`, `jsGet`, `isJsArray`,
`isJsString` and `jsDisplay`.  The JSON.parse collaborator and the schema
validation collaborator are parameters (`parse`, schema validators), as
the spec treats both as external collaborators.

The execution loop of the mollitia `Retry` module is not part of this
repository (mollitia is an external dependency); it is modelled from the
spec, with the attempt budget fixed by the repository test suite (see
`retryFrom`).
-/

namespace SmooFetch

/-- Model of a JavaScript/JSON dynamic value. -/
inductive JValue where
  | jnull
  | jbool (b : Bool)
  | jnum (n : Int)
  | jstr (s : String)
  | jarr (elems : List JValue)
  | jobj (fields : List (String × JValue))

/-- JavaScript truthiness of a value (empty string, 0, null, false are falsy;
arrays and objects are always truthy). -/
def jsTruthy : JValue → Bool
  | .jnull => false
  | .jbool b => b
  | .jnum n => n != 0
  | .jstr s => s != ""
  | .jarr _ => true
  | .jobj _ => true

/-- JavaScript property access `v[k]`: a lookup on objects, `undefined`
(modelled as `none`) on every other value. -/
def jsGet : JValue → String → Option JValue
  | .jobj fields, k => fields.lookup k
  | _, _ => none

/-- Model of `Array.isArray`. -/
def isJsArray : JValue → Bool
  | .jarr _ => true
  | _ => false

/-- Model of `typeof v === "string"`. -/
def isJsString : JValue → Bool
  | .jstr _ => true
  | _ => false

/-- The value itself when it is a string (models the
`typeof v === "string" ? v : undefined` guard). -/
def jsStrSelf : JValue → Option String
  | .jstr s => some s
  | _ => none

mutual
/-- Model of JavaScript string conversion as used by template interpolation:
strings unchanged, numbers in decimal, booleans `true` and `false`, `null`
renders as `null`, arrays join their elements with a comma, plain objects
render as `[object Object]`. -/
def jsDisplay : JValue → String
  | .jnull => "null"
  | .jbool b => if b then "true" else "false"
  | .jnum n => toString n
  | .jstr s => s
  | .jarr elems => jsDisplayList elems
  | .jobj _ => "[object Object]"

/-- Comma-joined rendering of a list of values (JS `Array.prototype.toString`). -/
def jsDisplayList : List JValue → String
  | [] => ""
  | [x] => jsDisplay x
  | x :: y :: rest => jsDisplay x ++ "," ++ jsDisplayList (y :: rest)
end

/-- Model of `obj.k ? ... : ...` guards: the property value when it is
present and truthy, `none` otherwise (mirrors `if (obj.k)` in the source). -/
def truthyGet (v : JValue) (k : String) : Option JValue :=
  match jsGet v k with
  | some x => if jsTruthy x then some x else none
  | none => none

/-- Element rendering used by `Array.prototype.join`: `null` renders as the
empty string, every other element via string conversion. -/
def jsJoinElem : JValue → String
  | .jnull => ""
  | v => jsDisplay v

/-- Model of `Array.prototype.join(sep)`. -/
def jsJoin (sep : String) : List JValue → String
  | [] => ""
  | [x] => jsJoinElem x
  | x :: y :: rest => jsJoinElem x ++ sep ++ jsJoin sep (y :: rest)

/-- The `ResponseWithBody` envelope of src/fetch.ts: a transport response
together with the materialized body (`isJson`, `data`, `dataString`). -/
structure Envelope where
  ok : Bool
  redirected : Bool
  status : Nat
  statusText : String
  headers : List (String × String)
  isJson : Bool
  data : Option JValue
  dataString : String

/-- Header lookup (`headers.get(name)`). -/
def headerGet (headers : List (String × String)) (name : String) : Option String :=
  headers.lookup name

/-- The unified error taxonomy of the pipeline: the classes
`HTTPResponseError` and `RetryError` of src/fetch.ts, the mollitia errors
`TimeoutError`, `RatelimitError` and `BreakerError`, and the
`HumanReadableSchemaError` raised by the schema-validation collaborator. -/
inductive FetchError where
  | httpResponseError (response : Envelope)
  | retryError (response : Envelope)
  | timeoutError
  | ratelimitError (remainingTimeInRatelimit : Nat)
  | humanReadableSchemaError (message : String)
  | breakerError

/-- The `response` field exposed by `HTTPResponseError` (and its subclass
`RetryError`); `none` for every other error (models
`error instanceof HTTPResponseError ? error.response : undefined`). -/
def responseOf : FetchError → Option Envelope
  | .httpResponseError r => some r
  | .retryError r => some r
  | _ => none

/-- Value returned by an `onRejection` retry callback: the source callbacks
return either a boolean or a number of milliseconds. -/
inductive RejVal where
  | bool (b : Bool)
  | num (n : Nat)
deriving DecidableEq

/-- JavaScript truthiness of an `onRejection` result, as tested by
`if (options.retry.onRejection(error, 1))` in `doFetch` (the number 0 is
falsy). -/
def RejVal.truthy : RejVal → Bool
  | .bool b => b
  | .num n => n != 0

/-- Retry decision of the mollitia loop for an `onRejection` result.
Modelled from the spec: `false` stops, `true` retries after backoff, a
numeric value retries after exactly that many milliseconds. -/
def RejVal.continueRetry : RejVal → Bool
  | .bool b => b
  | .num _ => true

/-- The `isRetryable` helper of src/fetch.ts. -/
def isRetryable (status : Nat) : Bool :=
  status == 429 || status >= 500

/-- Greedy decimal digit-run scan used to model JS `parseInt`. -/
def parseIntLeading : List Char → Nat → Bool → Option Nat
  | [], acc, seen => if seen then some acc else none
  | c :: rest, acc, seen =>
    if c.isDigit then parseIntLeading rest (acc * 10 + (c.toNat - 48)) true
    else if seen then some acc else none

/-- Model of JS `parseInt` on a base-10 string: the leading digit run, or
`NaN` (modelled as `none`) when the string does not start with a digit. -/
def jsParseInt (s : String) : Option Nat :=
  parseIntLeading s.data 0 false

/-- The `HTTPResponseError` branch of `DEFAULT_RETRY_OPTIONS.onRejection`:
when the status is retryable and a `Retry-After` header is present, return
`parseInt(header) * 1000` milliseconds; otherwise return whether the status
is retryable.  An unparseable header (`parseInt` yields `NaN`, which is
falsy) is modelled as 0, which is falsy as well. -/
def defaultHttpRejection (resp : Envelope) : RejVal :=
  match headerGet resp.headers "Retry-After" with
  | some v =>
      if isRetryable resp.status then .num (1000 * ((jsParseInt v).getD 0))
      else .bool (isRetryable resp.status)
  | none => .bool (isRetryable resp.status)

/-- The `onRejection` callback of `DEFAULT_RETRY_OPTIONS` in src/fetch.ts:
`HTTPResponseError` via `defaultHttpRejection`, `RatelimitError` returns its
remaining window time, `TimeoutError` retries, `HumanReadableSchemaError`
does not retry, anything else retries. -/
def defaultOnRejection (error : FetchError) (_attempt : Nat) : RejVal :=
  match error with
  | .httpResponseError resp => defaultHttpRejection resp
  | .retryError resp => defaultHttpRejection resp
  | .ratelimitError rem => .num rem
  | .timeoutError => .bool true
  | .humanReadableSchemaError _ => .bool false
  | .breakerError => .bool true

/-- The `onRejection` callback of `DEFAULT_RATE_LIMIT_RETRY_OPTIONS` in
src/fetch.ts: a `RatelimitError` retries after its remaining window time
plus 50 milliseconds; every other error is not retried. -/
def defaultRateLimitOnRejection (error : FetchError) (_attempt : Nat) : RejVal :=
  match error with
  | .ratelimitError rem => .num (rem + 50)
  | _ => .bool false

/-- The mollitia `RetryMode` values used by the source. -/
inductive RetryMode where
  | jitter
  | linear

/-- The `RetryOptions` interface of src/fetch.ts.  `jitterAdjustment` is a
JS fraction; it is stored here in hundredths (0.5 is stored as 50).  The
source marks `onRejection` optional but every configuration in the source
supplies one (both defaults do); it is modelled as required. -/
structure RetryConfig where
  attempts : Nat
  initialIntervalMs : Nat
  mode : Option RetryMode := none
  factor : Option Nat := none
  fastFirst : Option Bool := none
  maxInterval : Option Nat := none
  jitterAdjustmentHundredths : Option Nat := none
  onRejection : FetchError → Nat → RejVal

/-- The `DEFAULT_RETRY_OPTIONS` constant of src/fetch.ts. -/
def DEFAULT_RETRY_OPTIONS : RetryConfig :=
  { attempts := 2
    initialIntervalMs := 500
    mode := some .jitter
    factor := some 2
    jitterAdjustmentHundredths := some 50
    onRejection := defaultOnRejection }

/-- The `DEFAULT_RATE_LIMIT_RETRY_OPTIONS` constant of src/fetch.ts. -/
def DEFAULT_RATE_LIMIT_RETRY_OPTIONS : RetryConfig :=
  { attempts := 1
    initialIntervalMs := 500
    onRejection := defaultRateLimitOnRejection }

/-- Timeout configuration of `RequestOptions`. -/
structure TimeoutConfig where
  timeoutMs : Nat

/-- The lifecycle hooks of src/fetch.ts that act on outcomes: the
post-response-success hook may replace the envelope, the post-response-error
hook receives the error and (for HTTP errors) its envelope and may replace
the error.  Returning `none` models a `void` return.  The pre-request hook
rewrites the URL and request before the policy chain; it does not affect
the outcome classification modelled here. -/
structure Hooks where
  postResponseSuccess : Option (Envelope → Option Envelope) := none
  postResponseError : Option (FetchError → Option Envelope → Option FetchError) := none

/-- The `RequestOptions` of src/fetch.ts restricted to the fields that
drive the outcome pipeline (the logger performs side effects only, and the
schema is passed separately to `doGlobalFetchModel`). -/
structure RequestConfig where
  retry : Option RetryConfig := none
  timeout : Option TimeoutConfig := none
  hooks : Hooks := {}

/-- The `DEFAULTS` constant of src/fetch.ts: default retry options and a
10000 ms timeout. -/
def DEFAULTS : RequestConfig :=
  { retry := some DEFAULT_RETRY_OPTIONS
    timeout := some ⟨10000⟩ }

/-- Outcome of executing the per-call circuit: the settled result together
with the number of raw transport invocations performed. -/
structure RetryOutcome where
  result : Except FetchError Envelope
  calls : Nat

/-- Modelled from the spec: the execution loop of the mollitia `Retry`
module (mollitia is an external dependency, absent from src/).  `call k` is
the outcome of the k-th raw invocation (the timeout module does not alter
outcomes in this pure model: a deadline hit is a `call` returning
`timeoutError`).  On failure the loop consults `onRejection`; `false` stops,
`true` or a numeric delay re-invokes.  `retriesLeft` is the remaining number
of re-invocations: the repository test suite (src/fetch.spec.ts, test
"Test request retries failed") observes 3 transport calls under
`attempts := 2`, fixing `attempts` as the number of retries after the
initial call. -/
def retryFrom (onRej : FetchError → Nat → RejVal)
    (call : Nat → Except FetchError Envelope) :
    Nat → Nat → RetryOutcome
  | attempt, retriesLeft =>
    match call attempt, retriesLeft with
    | .ok env, _ => ⟨.ok env, 1⟩
    | .error e, 0 => ⟨.error e, 1⟩
    | .error e, n + 1 =>
      if (onRej e attempt).continueRetry then
        let rest := retryFrom onRej call (attempt + 1) n
        ⟨rest.result, rest.calls + 1⟩
      else ⟨.error e, 1⟩

/-- Execution of the per-call circuit built by `doFetch`
(`prepareCircuitModules`): the retry module wraps the raw call when retry
options are present; otherwise the raw call runs once. -/
def circuitExecute (cfg : RequestConfig)
    (call : Nat → Except FetchError Envelope) : RetryOutcome :=
  match cfg.retry with
  | some rc => retryFrom rc.onRejection call 0 rc.attempts
  | none =>
    match call 0 with
    | .ok env => ⟨.ok env, 1⟩
    | .error e => ⟨.error e, 1⟩

/-- The error classification of `doFetch`: a `TimeoutError` is only logged;
an error exposing an `HTTPResponseError` response is wrapped into a
`RetryError` carrying that response when retry options are configured and
`onRejection(error, 1)` is truthy (JS truthiness); every other error is
rethrown unchanged. -/
def classifyError (retry : Option RetryConfig) (e : FetchError) : FetchError :=
  match responseOf e with
  | some resp =>
    match retry with
    | some rc => if (rc.onRejection e 1).truthy then .retryError resp else e
    | none => e
  | none => e

/-- The catch path of `doFetch`: the post-response-error hook runs first
(receiving the error and, for HTTP errors, its envelope); a returned error
replaces the thrown error entirely, a `void` return lets the normal
classification proceed. -/
def handleCatch (hook : Option (FetchError → Option Envelope → Option FetchError))
    (retry : Option RetryConfig) (e : FetchError) : FetchError :=
  match hook with
  | some h =>
    match h e (responseOf e) with
    | some replaced => replaced
    | none => classifyError retry e
  | none => classifyError retry e

/-- The success path of `doFetch`: the post-response-success hook may
replace the envelope; a `void` return keeps the original. -/
def handleSuccess (hook : Option (Envelope → Option Envelope))
    (env : Envelope) : Envelope :=
  match hook with
  | some h =>
    match h env with
    | some replaced => replaced
    | none => env
  | none => env

/-- The outcome of `doFetch` in src/fetch.ts: execute the per-call circuit,
then run the success hook on a settled response, or the error hook and the
`RetryError` classification on a failure. -/
def doFetchModel (cfg : RequestConfig)
    (call : Nat → Except FetchError Envelope) : Except FetchError Envelope :=
  match (circuitExecute cfg call).result with
  | .ok env => .ok (handleSuccess cfg.hooks.postResponseSuccess env)
  | .error e => .error (handleCatch cfg.hooks.postResponseError cfg.retry e)

/-- Number of raw transport invocations performed by one `doFetch` call. -/
def doFetchCalls (cfg : RequestConfig)
    (call : Nat → Except FetchError Envelope) : Nat :=
  (circuitExecute cfg call).calls

/-- Whether a settled pipeline outcome is a success. -/
def exceptIsOk : Except FetchError Envelope → Bool
  | .ok _ => true
  | .error _ => false

/-- Whether a settled pipeline outcome is a thrown `RetryError`. -/
def isRetryErrorResult : Except FetchError Envelope → Bool
  | .error (.retryError _) => true
  | _ => false

/-- The default request configuration with the retry attempt budget
replaced, as produced by merging `DEFAULTS` with a caller retry override. -/
def defaultsWithAttempts (attempts : Nat) : RequestConfig :=
  { DEFAULTS with retry := some { DEFAULT_RETRY_OPTIONS with attempts := attempts } }

/-! Response materialization (`doGlobalFetch`). -/

/-- Whether the pattern occurs at the start of the character sequence. -/
def seqStartsWith : List Char → List Char → Bool
  | [], _ => true
  | _ :: _, [] => false
  | p :: ps, c :: cs => p == c && seqStartsWith ps cs

/-- Whether the pattern occurs anywhere in the character sequence. -/
def seqContains : List Char → List Char → Bool
  | [], pat => pat.isEmpty
  | c :: rest, pat => seqStartsWith pat (c :: rest) || seqContains rest pat

/-- Model of `String.prototype.includes`. -/
def strIncludes (s pat : String) : Bool :=
  seqContains s.data pat.data

/-- The content-type sniff of `doGlobalFetch`:
`headers.has("Content-Type") && headers.get("Content-Type").includes("application/json")`. -/
def contentTypeIsJson (headers : List (String × String)) : Bool :=
  match headerGet headers "Content-Type" with
  | some v => strIncludes v "application/json"
  | none => false

/-- A raw transport response as delivered by the raw-call collaborator
(`global.fetch`).  `ok` is not stored: per the fetch standard it is derived
from the status (see `RawResponse.isOkStatus`). -/
structure RawResponse where
  status : Nat
  statusText : String
  redirected : Bool
  headers : List (String × String)
  bodyText : String

/-- The `ok` flag of a transport response: status in the range 200-299. -/
def RawResponse.isOkStatus (r : RawResponse) : Bool :=
  decide (200 ≤ r.status ∧ r.status ≤ 299)

/-- Assembly of the `ResponseWithBody` at the end of `doGlobalFetch`: return
the envelope when the response is ok or redirected, otherwise throw an
`HTTPResponseError` carrying the envelope; when the body was not yet read
(`read = false`), the error envelope reads the body text first. -/
def finishResponse (raw : RawResponse) (isJson : Bool) (data : Option JValue)
    (dataString : String) (read : Bool) : Except FetchError Envelope :=
  if raw.isOkStatus || raw.redirected then
    .ok
      { ok := raw.isOkStatus
        redirected := raw.redirected
        status := raw.status
        statusText := raw.statusText
        headers := raw.headers
        isJson := isJson
        data := data
        dataString := dataString }
  else
    .error (.httpResponseError
      { ok := raw.isOkStatus
        redirected := raw.redirected
        status := raw.status
        statusText := raw.statusText
        headers := raw.headers
        isJson := isJson
        data := data
        dataString := if read then dataString else raw.bodyText })

/-- The response materialization of `doGlobalFetch` in src/fetch.ts.
`parse` models the `JSON.parse` collaborator (failure is `none`), `schema`
the optional schema-validation collaborator (failure is the
`HumanReadableSchemaError` message).  When the content type includes
`application/json` the body is read and parsed; on parse success, a
configured schema is run only for ok responses (validation failure is
rethrown as a hard failure); on parse failure the response is treated as
non-JSON.  The `RequestInit` merge performed before the transport call is
modelled separately by `useInitMerge`. -/
def doGlobalFetchModel (parse : String → Option JValue)
    (schema : Option (JValue → Except String JValue))
    (raw : RawResponse) : Except FetchError Envelope :=
  if contentTypeIsJson raw.headers then
    match parse raw.bodyText with
    | some parsed =>
      if raw.isOkStatus then
        match schema with
        | some validate =>
          match validate parsed with
          | .ok validated => finishResponse raw true (some validated) raw.bodyText true
          | .error m => .error (.humanReadableSchemaError m)
        | none => finishResponse raw true (some parsed) raw.bodyText true
      else finishResponse raw true (some parsed) raw.bodyText true
    | none => finishResponse raw false none raw.bodyText true
  else finishResponse raw false none "" false

/-- The envelope a `doGlobalFetch` outcome carries: the returned envelope on
success, the attached envelope of a thrown `HTTPResponseError`, nothing for
other errors. -/
def producedEnvelope : Except FetchError Envelope → Option Envelope
  | .ok env => some env
  | .error (.httpResponseError env) => some env
  | .error _ => none

/-! Error message construction (`HTTPResponseError` constructor). -/

/-- One accumulation step of the `HTTPResponseError` message builder:
append a piece to `errorStr` and set `errIsSet` when the piece applies. -/
def accumStep (acc : String × Bool) (piece : Option String) : String × Bool :=
  match piece with
  | some p => (acc.1 ++ p, true)
  | none => acc

/-- The non-array `data.error` block of the `HTTPResponseError` constructor:
sequentially append `(type): `, `(code): `, the message, and the value
itself when it is a string, tracking whether anything was set. -/
def errorFieldAccum (e : JValue) : String × Bool :=
  if isJsArray e then ("", false)
  else
    let s1 := accumStep ("", false)
      ((truthyGet e "type").map (fun t => "(" ++ jsDisplay t ++ "): "))
    let s2 := accumStep s1
      ((truthyGet e "code").map (fun c => "(" ++ jsDisplay c ++ "): "))
    let s3 := accumStep s2
      ((truthyGet e "message").map (fun m => jsDisplay m))
    accumStep s3 (jsStrSelf e)

/-- The message built by the `HTTPResponseError` constructor of src/fetch.ts:
when the envelope is JSON with truthy data, accumulate the non-array
`data.error` parts and then a `data.errorMessages` array joined with
`"; "`; when nothing was set, fall back to the raw body text (or
`Unknown error` when it is empty); prepend the optional constructor message
and append `; HTTP Error Response: <status> <statusText>`. -/
def httpErrorMessage (msg : Option String) (env : Envelope) : String :=
  let jsonAccum : String × Bool :=
    match env.data with
    | some d =>
      if env.isJson && jsTruthy d then
        let afterError :=
          match truthyGet d "error" with
          | some e => errorFieldAccum e
          | none => ("", false)
        match truthyGet d "errorMessages" with
        | some (.jarr elems) => (afterError.1 ++ jsJoin "; " elems, true)
        | some _ => afterError
        | none => afterError
      else ("", false)
    | none => ("", false)
  let errorStr :=
    if jsonAccum.2 then jsonAccum.1
    else if env.dataString == "" then "Unknown error" else env.dataString
  (match msg with | some m => m ++ "; " | none => "") ++ errorStr ++
    "; HTTP Error Response: " ++ toString env.status ++ " " ++ env.statusText

/-- The message of a `RetryError` in src/fetch.ts: the `HTTPResponseError`
message with the retry exhaustion note prepended. -/
def retryErrorMessage (env : Envelope) : String :=
  httpErrorMessage (some "Retry Error: Ran out of retry attempts.") env

/-! Policy composition (`prepareCircuitModules`, `prepareFetchContainerModules`). -/

/-- The mollitia modules instantiated by the source, plus the raw transport
call as the innermost layer of the composition. -/
inductive PipelineLayer where
  | retryModule
  | timeoutModule
  | rateLimitModule
  | circuitBreakerModule
  | rawCall
deriving DecidableEq

/-- Rate-limit configuration of `FetchContainerOptions`. -/
structure RateLimitConfig where
  limitForPeriod : Nat
  limitPeriodMs : Nat
  retry : Option RetryConfig := none

/-- Circuit-breaker configuration of `FetchContainerOptions`. -/
structure CircuitBreakerConfig where
  failureRateThreshold : Option Nat := none
  slowCallRateThreshold : Option Nat := none
  slowCallDurationThresholdMs : Option Nat := none
  permittedNumberOfCallsInHalfOpenState : Option Nat := none
  halfOpenStateMaxDelayMs : Option Nat := none
  slidingWindowSize : Option Nat := none
  minimumNumberOfCalls : Option Nat := none
  openStateDelayMs : Option Nat := none
  onError : Option (FetchError → Bool) := none

/-- The `FetchContainerOptions` of src/fetch.ts. -/
structure ContainerConfig where
  rateLimit : Option RateLimitConfig := none
  circuitBreaker : Option CircuitBreakerConfig := none

/-- The module list built by `prepareCircuitModules` in src/fetch.ts: a
`Retry` module when retry options are present, then a `Timeout` module when
timeout options are present. -/
def prepareCircuitModules (cfg : RequestConfig) : List PipelineLayer :=
  (if cfg.retry.isSome then [.retryModule] else []) ++
    (if cfg.timeout.isSome then [.timeoutModule] else [])

/-- The module list built by `prepareFetchContainerModules` in src/fetch.ts:
when rate limiting is configured, a `Retry` module (from the rate-limit
retry options or `DEFAULT_RATE_LIMIT_RETRY_OPTIONS`) followed by a
`Ratelimit` module; then a `SlidingCountBreaker` when a circuit breaker is
configured. -/
def prepareFetchContainerModules (container : Option ContainerConfig) :
    List PipelineLayer :=
  match container with
  | none => []
  | some co =>
    (match co.rateLimit with
     | some _ => [.retryModule, .rateLimitModule]
     | none => []) ++
    (match co.circuitBreaker with
     | some _ => [.circuitBreakerModule]
     | none => [])

/-- The full composition order for a call through a built client, outermost
first.  Modelled from the spec: mollitia applies a circuit module list with
the first module outermost (corroborated by the repository tests: timeout
failures are retried, and denied rate-limit admissions are retried by the
companion retry module).  The container circuit wraps `doFetch`, which runs
the per-call circuit around the raw transport call. -/
def compositionOrder (cfg : RequestConfig) (container : Option ContainerConfig) :
    List PipelineLayer :=
  prepareFetchContainerModules container ++ prepareCircuitModules cfg ++ [.rawCall]

/-! The `RequestInit` merge of `doGlobalFetch` (claim C10). -/

/-- Assignment of a primitive value under lodash `merge`: replace the value
at the key when present, otherwise append the key. -/
def objSet (o : List (String × JValue)) (k : String) (v : JValue) :
    List (String × JValue) :=
  if (o.lookup k).isSome then
    o.map (fun p => if p.1 == k then (k, v) else p)
  else o ++ [(k, v)]

/-- The merge `merge({}, init, { redirect: "follow" })` at the top of
`doGlobalFetch`: a caller `RequestInit` (modelled as a JS object, an
association list) merged with a single-key source whose `redirect` value is
the primitive string `follow`, which lodash merge assigns over any caller
value.  The subsequent JSON body stringification step of `doGlobalFetch`
acts only on the `body` key and is outside the merge. -/
def useInitMerge (init : List (String × JValue)) : List (String × JValue) :=
  objSet init "redirect" (.jstr "follow")

/-! Statements of claims that are compared against the source behaviour. -/

/-- Claim C3 as stated: every envelope the pipeline produces (returned or
attached to a thrown `HTTPResponseError`) satisfies: `isJson` implies the
body text parses as JSON, and `data` is present only if `isJson` and either
no schema is configured or schema validation succeeded on the parsed body. -/
def c3ClaimStatement (parse : String → Option JValue)
    (schema : Option (JValue → Except String JValue)) : Prop :=
  ∀ raw env, producedEnvelope (doGlobalFetchModel parse schema raw) = some env →
    (env.isJson = true → (parse env.dataString).isSome = true) ∧
    (env.data.isSome = true → env.isJson = true ∧
      (schema = none ∨
        ∃ v p r, schema = some v ∧ parse env.dataString = some p ∧
          v p = Except.ok r))

/-- The structured part of the claimed C5 message: the pieces extracted
from a non-array `error` object, present when any of `type`, `code`,
`message` is set. -/
def c5StructuredParts (e : JValue) : Option String :=
  let t := (truthyGet e "type").map (fun v => "(" ++ jsDisplay v ++ "): ")
  let c := (truthyGet e "code").map (fun v => "(" ++ jsDisplay v ++ "): ")
  let m := (truthyGet e "message").map (fun v => jsDisplay v)
  if t.isSome || c.isSome || m.isSome then
    some (t.getD "" ++ c.getD "" ++ m.getD "")
  else none

/-- Claim C5 as stated, as a message builder: prefer a structured
`error.{type,code,message}` field of the JSON body, else a string `error`
field, else an `errorMessages` array joined with `"; "`, else the raw body
text; always suffixed with `HTTP Error Response: <status> <statusText>`. -/
def c5ClaimedMessage (msg : Option String) (env : Envelope) : String :=
  let structured : Option String :=
    match env.data with
    | some d =>
      if env.isJson then
        match truthyGet d "error" with
        | some e => if isJsArray e then none else c5StructuredParts e
        | none => none
      else none
    | none => none
  let strError : Option String :=
    match env.data with
    | some d =>
      if env.isJson then
        match truthyGet d "error" with
        | some (.jstr s) => some s
        | _ => none
      else none
    | none => none
  let msgsJoined : Option String :=
    match env.data with
    | some d =>
      if env.isJson then
        match truthyGet d "errorMessages" with
        | some (.jarr elems) => some (jsJoin "; " elems)
        | _ => none
      else none
    | none => none
  let body : String :=
    match structured with
    | some s => s
    | none =>
      match strError with
      | some s => s
      | none =>
        match msgsJoined with
        | some s => s
        | none => env.dataString
  (match msg with | some m => m ++ "; " | none => "") ++ body ++
    "; HTTP Error Response: " ++ toString env.status ++ " " ++ env.statusText

/-- The `error`-field contribution of the amended C5 message: from a
non-array `error` value, the pieces `(type): `, `(code): `, the message and
the value itself when it is a string, concatenated; present when at least
one piece applies. -/
def c5ErrorPart (e : JValue) : Option String :=
  if isJsArray e then none
  else
    let t := (truthyGet e "type").map (fun v => "(" ++ jsDisplay v ++ "): ")
    let c := (truthyGet e "code").map (fun v => "(" ++ jsDisplay v ++ "): ")
    let m := (truthyGet e "message").map (fun v => jsDisplay v)
    let s := jsStrSelf e
    if t.isSome || c.isSome || m.isSome || s.isSome then
      some (t.getD "" ++ c.getD "" ++ m.getD "" ++ s.getD "")
    else none

/-- The amended C5 claim as a message builder: for a JSON body with truthy
data, the contributions accumulate in order (the `error`-field part, then an
`errorMessages` array joined with `"; "`); when no contribution applies, the
raw body text is used, or `Unknown error` when the body text is empty; the
optional constructor message is prepended and the status suffix is always
appended. -/
def c5AmendedMessage (msg : Option String) (env : Envelope) : String :=
  let errorPart : Option String :=
    match env.data with
    | some d =>
      if env.isJson && jsTruthy d then
        match truthyGet d "error" with
        | some e => c5ErrorPart e
        | none => none
      else none
    | none => none
  let msgsPart : Option String :=
    match env.data with
    | some d =>
      if env.isJson && jsTruthy d then
        match truthyGet d "errorMessages" with
        | some (.jarr elems) => some (jsJoin "; " elems)
        | _ => none
      else none
    | none => none
  let body : String :=
    match errorPart, msgsPart with
    | some a, some b => a ++ b
    | some a, none => a
    | none, some b => b
    | none, none => if env.dataString == "" then "Unknown error" else env.dataString
  (match msg with | some m => m ++ "; " | none => "") ++ body ++
    "; HTTP Error Response: " ++ toString env.status ++ " " ++ env.statusText

/-! Concrete scenarios used by counterexamples and witnesses. -/

/-- A failed JSON transport envelope with the given status, as thrown by
the materializer for a retryable failure with an empty JSON object body. -/
def mkTestEnvelope (status : Nat) : Envelope :=
  { ok := false
    redirected := false
    status := status
    statusText := "Error"
    headers := [("Content-Type", "application/json")]
    isJson := true
    data := some (.jobj [])
    dataString := "" }

/-- The attempt statuses of the repository test "Test request retries
failed": 429, then 500, then 501. -/
def c1TestStatus (k : Nat) : Nat :=
  if k == 0 then 429 else if k == 1 then 500 else 501

/-- The raw-call oracle of the repository test "Test request retries
failed": every attempt fails with an `HTTPResponseError` whose status is
retryable. -/
def c1TestCall : Nat → Except FetchError Envelope :=
  fun k => .error (.httpResponseError (mkTestEnvelope (c1TestStatus k)))

/-- A 429 envelope carrying a `Retry-After: 0` header, on which the default
retry predicate evaluates to the falsy number 0. -/
def c2LastEnv : Envelope :=
  { ok := false
    redirected := false
    status := 429
    statusText := "Too Many Requests"
    headers := [("Retry-After", "0")]
    isJson := false
    data := none
    dataString := "" }

/-- A raw-call oracle whose first attempt fails with a plain 429 and whose
later attempts fail with a 429 carrying `Retry-After: 0`. -/
def c2CexCall : Nat → Except FetchError Envelope :=
  fun k =>
    if k == 0 then .error (.httpResponseError (mkTestEnvelope 429))
    else .error (.httpResponseError c2LastEnv)

/-- A concrete JSON.parse collaborator for witnesses: the fixed body
`plain text` fails to parse, everything else parses to a JSON string. -/
def cexParse : String → Option JValue :=
  fun s => if s == "plain text" then none else some (.jstr s)

/-- A schema validator that rejects every value. -/
def cexRejectAll : JValue → Except String JValue :=
  fun _ => .error "Expected string, received number"

/-- A schema validator that accepts every value unchanged. -/
def cexAcceptAll : JValue → Except String JValue :=
  fun v => .ok v

/-- A failed (status 400) JSON transport response. -/
def c3CexRaw : RawResponse :=
  { status := 400
    statusText := "Bad Request"
    redirected := false
    headers := [("Content-Type", "application/json")]
    bodyText := "id 123" }

/-- The envelope the materializer attaches to the `HTTPResponseError`
thrown for `c3CexRaw` under `cexParse` and a configured schema: `data` is
populated with the parsed body even though validation never ran. -/
def c3CexEnv : Envelope :=
  { ok := false
    redirected := false
    status := 400
    statusText := "Bad Request"
    headers := [("Content-Type", "application/json")]
    isJson := true
    data := some (.jstr "id 123")
    dataString := "id 123" }

/-- The envelope returned for `c4CexRaw` under `cexParse` and the
accept-all validator: a success envelope with validated data. -/
def c3WitnessEnv : Envelope :=
  { ok := true
    redirected := false
    status := 200
    statusText := "OK"
    headers := [("Content-Type", "application/json")]
    isJson := true
    data := some (.jstr "id 123")
    dataString := "id 123" }

/-- A successful (status 200) JSON transport response. -/
def c4CexRaw : RawResponse :=
  { status := 200
    statusText := "OK"
    redirected := false
    headers := [("Content-Type", "application/json")]
    bodyText := "id 123" }

/-- The envelope of the C5 counterexample: a JSON error body carrying both
a string `error` field and an `errorMessages` array. -/
def c5Env : Envelope :=
  { ok := false
    redirected := false
    status := 400
    statusText := "Bad Request"
    headers := []
    isJson := true
    data := some (.jobj
      [("error", .jstr "E1"), ("errorMessages", .jarr [.jstr "A", .jstr "B"])])
    dataString := "raw body" }

/-- A concrete container configuration with both a rate limiter and a
circuit breaker. -/
def c6CexContainer : ContainerConfig :=
  { rateLimit := some { limitForPeriod := 2, limitPeriodMs := 400 }
    circuitBreaker := some {} }

/-- A plain retryable 429 envelope without a `Retry-After` header. -/
def c9Env : Envelope := mkTestEnvelope 429

/-- A concrete caller `RequestInit` object: a POST with a body and a
caller-supplied redirect mode that the merge overrides. -/
def c10CexInit : List (String × JValue) :=
  [("method", .jstr "POST"),
   ("body", .jstr "payload"),
   ("redirect", .jstr "error"),
   ("credentials", .jstr "include")]

/-! Helper lemmas about the retry loop and the default predicates. -/

/-- The default retry predicate decides to continue on every
`HTTPResponseError` whose status is retryable (a present `Retry-After`
header yields a numeric delay, which also continues). -/
theorem defaultOnRejection_http_continue (resp : Envelope) (k : Nat)
    (h : isRetryable resp.status = true) :
    (defaultOnRejection (.httpResponseError resp) k).continueRetry = true := by
  simp only [defaultOnRejection, defaultHttpRejection]
  cases headerGet resp.headers "Retry-After" with
  | none => simp [RejVal.continueRetry, h]
  | some v => simp [RejVal.continueRetry, h]

/-- When every raw invocation fails and the rejection predicate always
continues, the retry loop spends its whole budget: starting at attempt `k`
with `left` retries remaining, it performs `left + 1` calls and settles on
the error of attempt `k + left`. -/
theorem retryFrom_all_fail (onRej : FetchError → Nat → RejVal)
    (call : Nat → Except FetchError Envelope) (err : Nat → FetchError)
    (hcall : ∀ k, call k = .error (err k))
    (hc : ∀ k, (onRej (err k) k).continueRetry = true) :
    ∀ left k, retryFrom onRej call k left = ⟨.error (err (k + left)), left + 1⟩ := by
  intro left
  induction left with
  | zero =>
    intro k
    unfold retryFrom
    rw [hcall k]
    simp
  | succ n ih =>
    intro k
    unfold retryFrom
    rw [hcall k]
    simp only [hc k, if_true, ih (k + 1)]
    have : k + (n + 1) = k + 1 + n := by omega
    rw [this]

/-- When every raw invocation fails with the same error, the retry loop
settles on that error (whether or not the predicate keeps retrying). -/
theorem retryFrom_const_error (onRej : FetchError → Nat → RejVal)
    (call : Nat → Except FetchError Envelope) (e : FetchError)
    (hcall : ∀ k, call k = .error e) :
    ∀ left k, (retryFrom onRej call k left).result = .error e := by
  intro left
  induction left with
  | zero =>
    intro k
    unfold retryFrom
    rw [hcall k]
  | succ n ih =>
    intro k
    unfold retryFrom
    rw [hcall k]
    by_cases hco : (onRej e k).continueRetry
    · simp only [hco, if_true]
      exact ih (k + 1)
    · simp [hco]

/-- A first-attempt failure on which the rejection predicate declines stops
the loop after exactly one call, propagating the error. -/
theorem retryFrom_stop_first (onRej : FetchError → Nat → RejVal)
    (call : Nat → Except FetchError Envelope) (e : FetchError)
    (h0 : call 0 = .error e)
    (hstop : (onRej e 0).continueRetry = false) :
    ∀ left, retryFrom onRej call 0 left = ⟨.error e, 1⟩ := by
  intro left
  unfold retryFrom
  rw [h0]
  cases left with
  | zero => rfl
  | succ n => simp [hstop]

/-! Claim theorems. -/

/-- Claim C1, counterexample: under the default retry configuration
(`attempts = 2`) and the raw-call failures of the repository test "Test
request retries failed" (statuses 429, 500, 501), the pipeline performs 3
raw transport calls, not the 2 the claim states. -/
theorem c1_counterexample :
    doFetchCalls DEFAULTS c1TestCall = 3 ∧ (3 : Nat) ≠ 2 :=
  ⟨rfl, by decide⟩

/-- Claim C1 (amended): for every request under the default retry
configuration (with any attempt budget) whose raw-call attempts all fail
with a retryable status (429 or at least 500), the pipeline performs
exactly `attempts + 1` raw transport calls: `attempts` counts the retries
after the initial try, so the default `attempts = 2` yields 3 raw calls. -/
theorem c1_theorem (attempts : Nat)
    (call : Nat → Except FetchError Envelope) (f : Nat → Envelope)
    (hcall : ∀ k, call k = .error (.httpResponseError (f k)))
    (hretry : ∀ k, isRetryable (f k).status = true) :
    doFetchCalls (defaultsWithAttempts attempts) call = attempts + 1 := by
  have h := retryFrom_all_fail defaultOnRejection call
    (fun k => .httpResponseError (f k)) hcall
    (fun k => defaultOnRejection_http_continue (f k) k (hretry k))
    attempts 0
  simp only [doFetchCalls, circuitExecute, defaultsWithAttempts, DEFAULTS,
    DEFAULT_RETRY_OPTIONS] at *
  rw [h]

/-- Witness for C1: the amended count at the concrete scenario of the
repository test (default budget 2, statuses 429, 500, 501). -/
theorem c1_theorem_witness :
    doFetchCalls (defaultsWithAttempts 2) c1TestCall = 2 + 1 :=
  c1_theorem 2 c1TestCall (fun k => mkTestEnvelope (c1TestStatus k))
    (fun _ => rfl)
    (fun k => by
      simp only [mkTestEnvelope, c1TestStatus, isRetryable]
      by_cases h0 : k == 0
      · simp [h0]
      · by_cases h1 : k == 1
        · simp [h0, h1]
        · simp [h0, h1])

/-- Claim C7, counterexample: the default rate-limit retry predicate
applied to a rate-limit denial with 100 ms remaining returns a 150 ms
delay, not the 100 ms the claim states. -/
theorem c7_counterexample :
    defaultRateLimitOnRejection (.ratelimitError 100) 1 = .num 150 ∧
      RejVal.num 150 ≠ RejVal.num 100 :=
  ⟨rfl, by decide⟩

/-- Claim C7 (amended): the default rate-limit retry predicate
(`DEFAULT_RATE_LIMIT_RETRY_OPTIONS.onRejection`) sleeps the denial error
remaining window time plus a 50 ms buffer (`remainingTimeInRatelimit + 50`)
before re-attempting admission, and returns false (no retry) for every
error that is not a rate-limit denial. -/
theorem c7_theorem :
    (∀ rem a, defaultRateLimitOnRejection (.ratelimitError rem) a =
      .num (rem + 50)) ∧
    (∀ env a, defaultRateLimitOnRejection (.httpResponseError env) a =
      .bool false) ∧
    (∀ env a, defaultRateLimitOnRejection (.retryError env) a = .bool false) ∧
    (∀ a, defaultRateLimitOnRejection .timeoutError a = .bool false) ∧
    (∀ m a, defaultRateLimitOnRejection (.humanReadableSchemaError m) a =
      .bool false) ∧
    (∀ a, defaultRateLimitOnRejection .breakerError a = .bool false) :=
  ⟨fun _ _ => rfl, fun _ _ => rfl, fun _ _ => rfl, fun _ => rfl,
    fun _ _ => rfl, fun _ => rfl⟩

/-- Claim C8: the default retry rejection predicate returns false for a
schema validation error, so under any default-predicate configuration a
first-attempt `HumanReadableSchemaError` is never retried: the pipeline
performs a single raw call and propagates the validation error unchanged. -/
theorem c8_theorem (m : String) (attempts : Nat)
    (call : Nat → Except FetchError Envelope)
    (h0 : call 0 = .error (.humanReadableSchemaError m)) :
    defaultOnRejection (.humanReadableSchemaError m) 1 = .bool false ∧
    doFetchCalls (defaultsWithAttempts attempts) call = 1 ∧
    doFetchModel (defaultsWithAttempts attempts) call =
      .error (.humanReadableSchemaError m) := by
  have hloop := retryFrom_stop_first defaultOnRejection call
    (.humanReadableSchemaError m) h0 rfl attempts
  refine ⟨rfl, ?_, ?_⟩
  · simp only [doFetchCalls, circuitExecute, defaultsWithAttempts, DEFAULTS,
      DEFAULT_RETRY_OPTIONS]
    rw [hloop]
  · simp only [doFetchModel, circuitExecute, defaultsWithAttempts, DEFAULTS,
      DEFAULT_RETRY_OPTIONS]
    rw [hloop]
    simp [handleCatch, classifyError, responseOf]

/-- Witness for C8: a concrete schema-validation failure on the first
attempt under the default budget. -/
theorem c8_theorem_witness :
    defaultOnRejection (.humanReadableSchemaError "bad") 1 = .bool false ∧
    doFetchCalls (defaultsWithAttempts 2)
      (fun _ => .error (.humanReadableSchemaError "bad")) = 1 ∧
    doFetchModel (defaultsWithAttempts 2)
      (fun _ => .error (.humanReadableSchemaError "bad")) =
      .error (.humanReadableSchemaError "bad") :=
  c8_theorem "bad" 2 (fun _ => .error (.humanReadableSchemaError "bad")) rfl

/-- Claim C2, counterexample: with a retry budget of 1, a first attempt
failing with a plain 429 and a last attempt failing with a 429 carrying a
`Retry-After: 0` header, the attempts are exhausted (2 raw calls) on an
HTTP-level failure, yet the pipeline propagates the plain
`HTTPResponseError` of the last attempt and throws no `RetryError`: the
wrap condition re-evaluates the default predicate, whose numeric result 0
is falsy. -/
theorem c2_counterexample :
    doFetchCalls (defaultsWithAttempts 1) c2CexCall = 1 + 1 ∧
    doFetchModel (defaultsWithAttempts 1) c2CexCall =
      .error (.httpResponseError c2LastEnv) ∧
    isRetryErrorResult (doFetchModel (defaultsWithAttempts 1) c2CexCall) = false :=
  ⟨rfl, rfl, rfl⟩

/-- Claim C2 (amended): when the retry attempts are exhausted on
`HTTPResponseError` failures with retryable statuses and the last response
carries no `Retry-After` header (so the default predicate is truthy on the
final error), the pipeline throws a `RetryError` whose `response` field is
the response of the last attempt, not the first; an exhausted HTTP failure
on which the predicate evaluates to the falsy number 0 (a `Retry-After: 0`
header) is propagated as the original `HTTPResponseError`; for non-HTTP
failures (timeout, rate limit) the last underlying error is propagated
unchanged and is never relabeled as a `RetryError`. -/
theorem c2_theorem (attempts : Nat)
    (call : Nat → Except FetchError Envelope) (f : Nat → Envelope)
    (hcall : ∀ k, call k = .error (.httpResponseError (f k)))
    (hretry : ∀ k, isRetryable (f k).status = true)
    (hra : headerGet (f attempts).headers "Retry-After" = none)
    (e : FetchError) (he : responseOf e = none)
    (callE : Nat → Except FetchError Envelope)
    (hcallE : ∀ k, callE k = .error e) :
    doFetchModel (defaultsWithAttempts attempts) call =
      .error (.retryError (f attempts)) ∧
    doFetchModel (defaultsWithAttempts attempts) callE = .error e := by
  constructor
  · have hloop := retryFrom_all_fail defaultOnRejection call
      (fun k => .httpResponseError (f k)) hcall
      (fun k => defaultOnRejection_http_continue (f k) k (hretry k))
      attempts 0
    simp only [doFetchModel, circuitExecute, defaultsWithAttempts, DEFAULTS,
      DEFAULT_RETRY_OPTIONS]
    rw [hloop]
    simp only [handleCatch, classifyError, responseOf]
    have htruthy : (defaultOnRejection
        (.httpResponseError (f (0 + attempts))) 1).truthy = true := by
      simp only [defaultOnRejection, defaultHttpRejection, Nat.zero_add, hra]
      simp [RejVal.truthy, hretry attempts]
    simp only [Nat.zero_add] at htruthy ⊢
    simp [htruthy]
  · have hloop := retryFrom_const_error defaultOnRejection callE e hcallE attempts 0
    simp only [doFetchModel, circuitExecute, defaultsWithAttempts, DEFAULTS,
      DEFAULT_RETRY_OPTIONS]
    cases hres : (retryFrom defaultOnRejection callE 0 attempts).result with
    | ok env => rw [hres] at hloop; exact absurd hloop (by simp)
    | error e2 =>
      rw [hres] at hloop
      cases hloop
      simp [handleCatch, classifyError, he]

/-- Witness for C2: the repository retry-failure scenario (statuses 429,
500, 501 under budget 2) yields a `RetryError` carrying the 501 response of
the last attempt, and a pipeline whose every attempt times out propagates
the `TimeoutError` unchanged. -/
theorem c2_theorem_witness :
    doFetchModel (defaultsWithAttempts 2) c1TestCall =
      .error (.retryError (mkTestEnvelope (c1TestStatus 2))) ∧
    doFetchModel (defaultsWithAttempts 2) (fun _ => .error .timeoutError) =
      .error .timeoutError :=
  c2_theorem 2 c1TestCall (fun k => mkTestEnvelope (c1TestStatus k))
    (fun _ => rfl)
    (fun k => by
      simp only [mkTestEnvelope, c1TestStatus, isRetryable]
      by_cases h0 : k == 0
      · simp [h0]
      · by_cases h1 : k == 1
        · simp [h0, h1]
        · simp [h0, h1])
    rfl
    .timeoutError rfl (fun _ => .error .timeoutError) (fun _ => rfl)

/-- Both envelopes a materializer outcome built by `finishResponse` with a
read body can carry (the returned one and the thrown one) agree with the
arguments on the fields the invariants speak about. -/
theorem producedEnvelope_finish_read (raw : RawResponse) (isJson : Bool)
    (data : Option JValue) (ds : String) (env : Envelope)
    (h : producedEnvelope (finishResponse raw isJson data ds true) = some env) :
    env.isJson = isJson ∧ env.data = data ∧ env.dataString = ds ∧
      env.ok = raw.isOkStatus := by
  unfold finishResponse at h
  by_cases hok : (raw.isOkStatus || raw.redirected) = true
  · rw [if_pos hok] at h
    simp only [producedEnvelope] at h
    injection h with h
    subst h
    exact ⟨rfl, rfl, rfl, rfl⟩
  · rw [if_neg hok] at h
    simp only [producedEnvelope] at h
    injection h with h
    subst h
    exact ⟨rfl, rfl, rfl, rfl⟩

/-- The non-JSON-content-type branch of the materializer produces only
envelopes with `isJson = false` and absent data. -/
theorem producedEnvelope_finish_unread (raw : RawResponse) (env : Envelope)
    (h : producedEnvelope (finishResponse raw false none "" false) = some env) :
    env.isJson = false ∧ env.data = none := by
  unfold finishResponse at h
  by_cases hok : (raw.isOkStatus || raw.redirected) = true
  · rw [if_pos hok] at h
    simp only [producedEnvelope] at h
    injection h with h
    subst h
    exact ⟨rfl, rfl⟩
  · rw [if_neg hok] at h
    simp only [producedEnvelope] at h
    injection h with h
    subst h
    exact ⟨rfl, rfl⟩

/-- Claim C3, counterexample: with a schema configured (here one rejecting
every value) the claimed invariant fails: a non-ok JSON response produces a
thrown envelope whose `data` is populated although the schema neither is
absent nor succeeded (validation is skipped for non-ok responses). -/
theorem c3_counterexample : ¬ c3ClaimStatement cexParse (some cexRejectAll) := by
  intro hclaim
  have h := (hclaim c3CexRaw c3CexEnv rfl).2 rfl
  rcases h.2 with hnone | ⟨v, p, r, hv, _, hr⟩
  · exact Option.noConfusion hnone
  · cases hv
    exact Except.noConfusion hr

/-- Claim C3 (amended): for every envelope the materializer produces
(returned on success or attached to a thrown `HTTPResponseError`),
`isJson = true` implies the stored body text parses as JSON, and `data` is
present only if `isJson` is true and either no schema is configured, or the
response was not ok (validation is skipped for non-2xx responses and `data`
is the parsed body), or schema validation succeeded on the parsed body. -/
theorem c3_theorem (parse : String → Option JValue)
    (schema : Option (JValue → Except String JValue)) (raw : RawResponse)
    (env : Envelope)
    (h : producedEnvelope (doGlobalFetchModel parse schema raw) = some env) :
    (env.isJson = true → (parse env.dataString).isSome = true) ∧
    (env.data.isSome = true → env.isJson = true ∧
      (schema = none ∨ env.ok = false ∨
        ∃ v p r, schema = some v ∧ parse env.dataString = some p ∧
          v p = Except.ok r)) := by
  unfold doGlobalFetchModel at h
  by_cases hct : contentTypeIsJson raw.headers = true
  · rw [if_pos hct] at h
    cases hp : parse raw.bodyText with
    | none =>
      rw [hp] at h
      obtain ⟨hij, hdata, _, _⟩ := producedEnvelope_finish_read _ _ _ _ _ h
      constructor
      · intro hj
        rw [hij] at hj
        exact absurd hj (by simp)
      · intro hd
        rw [hdata] at hd
        exact absurd hd (by simp)
    | some p =>
      rw [hp] at h
      dsimp only at h
      by_cases hok : raw.isOkStatus = true
      · rw [if_pos hok] at h
        cases schema with
        | none =>
          obtain ⟨hij, hdata, hds, _⟩ := producedEnvelope_finish_read _ _ _ _ _ h
          refine ⟨fun _ => ?_, fun _ => ⟨hij, Or.inl rfl⟩⟩
          rw [hds, hp]
          rfl
        | some validate =>
          dsimp only at h
          cases hv : validate p with
          | error m =>
            rw [hv] at h
            exact absurd h (by simp [producedEnvelope])
          | ok r =>
            rw [hv] at h
            obtain ⟨hij, hdata, hds, _⟩ := producedEnvelope_finish_read _ _ _ _ _ h
            refine ⟨fun _ => ?_, fun _ => ⟨hij, Or.inr (Or.inr ⟨validate, p, r, rfl, ?_, hv⟩)⟩⟩
            · rw [hds, hp]
              rfl
            · rw [hds]
              exact hp
      · rw [if_neg hok] at h
        obtain ⟨hij, hdata, hds, hok2⟩ := producedEnvelope_finish_read _ _ _ _ _ h
        refine ⟨fun _ => ?_, fun _ => ⟨hij, Or.inr (Or.inl ?_)⟩⟩
        · rw [hds, hp]
          rfl
        · rw [hok2]
          simpa using hok
  · rw [if_neg hct] at h
    obtain ⟨hij, hdata⟩ := producedEnvelope_finish_unread _ _ h
    constructor
    · intro hj
      rw [hij] at hj
      exact absurd hj (by simp)
    · intro hd
      rw [hdata] at hd
      exact absurd hd (by simp)

/-- Witness for C3: the amended invariant at a concrete success envelope
with a configured accept-all schema. -/
theorem c3_theorem_witness :
    (c3WitnessEnv.isJson = true →
      (cexParse c3WitnessEnv.dataString).isSome = true) ∧
    (c3WitnessEnv.data.isSome = true → c3WitnessEnv.isJson = true ∧
      (some cexAcceptAll = none ∨ c3WitnessEnv.ok = false ∨
        ∃ v p r, some cexAcceptAll = some v ∧
          cexParse c3WitnessEnv.dataString = some p ∧ v p = Except.ok r)) :=
  c3_theorem cexParse (some cexAcceptAll) c4CexRaw c3WitnessEnv rfl

/-- Claim C4: for every response with an ok status (200-299), a configured
schema and a JSON body whose parsed value fails schema validation, the
materializer fails with the schema-validation error
(`HumanReadableSchemaError`): it is never treated as non-JSON and no
envelope is returned. -/
theorem c4_theorem (parse : String → Option JValue)
    (validate : JValue → Except String JValue)
    (raw : RawResponse) (p : JValue) (m : String)
    (hst : 200 ≤ raw.status ∧ raw.status ≤ 299)
    (hct : contentTypeIsJson raw.headers = true)
    (hp : parse raw.bodyText = some p)
    (hv : validate p = Except.error m) :
    doGlobalFetchModel parse (some validate) raw =
      .error (.humanReadableSchemaError m) := by
  have hok : raw.isOkStatus = true := by
    simp [RawResponse.isOkStatus, hst.1, hst.2]
  simp [doGlobalFetchModel, hct, hp, hok, hv]

/-- Witness for C4: a 200 JSON response whose parsed body is rejected by
the configured validator fails with that validation error. -/
theorem c4_theorem_witness :
    doGlobalFetchModel cexParse (some cexRejectAll) c4CexRaw =
      .error (.humanReadableSchemaError "Expected string, received number") :=
  c4_theorem cexParse cexRejectAll c4CexRaw (.jstr "id 123")
    "Expected string, received number" (by decide) rfl rfl rfl

/-- The sequential accumulation over the non-array `error` field equals the
concatenation of its independent optional pieces, with the set flag
recording whether any piece applied. -/
theorem errorFieldAccum_eq (e : JValue) :
    errorFieldAccum e =
      match c5ErrorPart e with
      | some s => (s, true)
      | none => ("", false) := by
  unfold errorFieldAccum c5ErrorPart
  by_cases ha : isJsArray e = true
  · simp [ha]
  · simp only [ha, Bool.false_eq_true, if_false]
    cases ht : truthyGet e "type" <;>
      cases hc : truthyGet e "code" <;>
        cases hm : truthyGet e "message" <;>
          cases hs : jsStrSelf e <;>
            simp [accumStep, String.empty_append, String.append_empty,
              String.append_assoc]

/-- Claim C5, counterexample: on a JSON error body carrying both a string
`error` field and an `errorMessages` array, the constructor concatenates
both contributions, while the claimed preference chain would stop at the
string `error` field. -/
theorem c5_counterexample :
    httpErrorMessage none c5Env =
      "E1A; B; HTTP Error Response: 400 Bad Request" ∧
    c5ClaimedMessage none c5Env =
      "E1; HTTP Error Response: 400 Bad Request" ∧
    httpErrorMessage none c5Env ≠ c5ClaimedMessage none c5Env :=
  ⟨rfl, rfl, by decide⟩

/-- Claim C5 (amended): the `HTTPResponseError` message accumulates, in
order, the non-array `error` field contribution (the pieces `(type): `,
`(code): `, the message, and the value itself when it is a string) and then
any `errorMessages` array joined with `"; "`; when no contribution applies,
the raw body text is used (or `Unknown error` when the body text is empty);
the optional constructor message is prepended and the message is always
suffixed with `; HTTP Error Response: <status> <statusText>`. -/
theorem c5_theorem (msg : Option String) (env : Envelope) :
    httpErrorMessage msg env = c5AmendedMessage msg env := by
  unfold httpErrorMessage c5AmendedMessage
  cases hd : env.data with
  | none => rfl
  | some d =>
    by_cases hj : (env.isJson && jsTruthy d) = true
    · simp only [hj, if_true]
      cases he : truthyGet d "error" with
      | none =>
        cases hm : truthyGet d "errorMessages" with
        | none => rfl
        | some ms => cases ms <;> simp [String.empty_append]
      | some e =>
        dsimp only
        rw [errorFieldAccum_eq]
        cases hep : c5ErrorPart e with
        | none =>
          cases hm : truthyGet d "errorMessages" with
          | none => rfl
          | some ms => cases ms <;> simp [String.empty_append]
        | some s =>
          cases hm : truthyGet d "errorMessages" with
          | none => rfl
          | some ms => cases ms <;> simp
    · simp only [hj, Bool.false_eq_true, if_false]

/-- Claim C6: for a call through a built client with a rate limiter and a
circuit breaker configured (and the per-call retry and timeout present, as
under the defaults), the composition order from outermost to innermost is
the rate-limit admission retry, the rate limiter, the circuit breaker, and
then the per-call scope of retry, timeout, and the raw transport call. -/
theorem c6_theorem (cfg : RequestConfig) (co : ContainerConfig)
    (rl : RateLimitConfig) (cb : CircuitBreakerConfig)
    (h1 : co.rateLimit = some rl) (h2 : co.circuitBreaker = some cb)
    (h3 : cfg.retry.isSome = true) (h4 : cfg.timeout.isSome = true) :
    compositionOrder cfg (some co) =
      [.retryModule, .rateLimitModule, .circuitBreakerModule,
       .retryModule, .timeoutModule, .rawCall] := by
  simp [compositionOrder, prepareFetchContainerModules, prepareCircuitModules,
    h1, h2, h3, h4]

/-- Witness for C6: the concrete container configuration with both modules
under the default request options. -/
theorem c6_theorem_witness :
    compositionOrder DEFAULTS (some c6CexContainer) =
      [.retryModule, .rateLimitModule, .circuitBreakerModule,
       .retryModule, .timeoutModule, .rawCall] :=
  c6_theorem DEFAULTS c6CexContainer
    { limitForPeriod := 2, limitPeriodMs := 400 } {} rfl rfl rfl rfl

/-- Claim C9, counterexample: a post-response-error hook returning void on
an exhausted retryable HTTP failure does not see the original error
propagated: the pipeline still wraps it into a `RetryError`, a different
error object. -/
theorem c9_counterexample :
    handleCatch (some (fun _ _ => none)) (some DEFAULT_RETRY_OPTIONS)
      (.httpResponseError c9Env) = .retryError c9Env ∧
    FetchError.retryError c9Env ≠ FetchError.httpResponseError c9Env :=
  ⟨rfl, fun h => FetchError.noConfusion h⟩

/-- Claim C9 (amended): the postResponseError hook runs on every classified
error (receiving the error and, for HTTP errors, its envelope); if it
returns an error, that error replaces the thrown error entirely; if it
returns void, the pipeline proceeds exactly as with no hook configured (the
original error is propagated, except that an HTTP failure whose default
retry predicate is truthy is wrapped into a `RetryError`); in no case does
the hook mechanism turn a failure into a successful result. -/
theorem c9_theorem (h : FetchError → Option Envelope → Option FetchError)
    (retry : Option RetryConfig) (e e2 e' : FetchError)
    (hrepl : h e (responseOf e) = some e')
    (g : FetchError → Option Envelope → Option FetchError)
    (hvoid : g e2 (responseOf e2) = none)
    (cfg : RequestConfig) (call : Nat → Except FetchError Envelope) :
    handleCatch (some h) retry e = e' ∧
    handleCatch (some g) retry e2 = handleCatch none retry e2 ∧
    exceptIsOk (doFetchModel cfg call) =
      exceptIsOk (circuitExecute cfg call).result := by
  refine ⟨?_, ?_, ?_⟩
  · simp [handleCatch, hrepl]
  · simp [handleCatch, hvoid]
  · simp only [doFetchModel]
    cases (circuitExecute cfg call).result with
    | ok env => rfl
    | error err => rfl

/-- Witness for C9: a replacing hook rewrites a breaker error into a
timeout error, a void hook leaves a timeout error on the no-hook path, and
a concrete failing pipeline stays a failure. -/
theorem c9_theorem_witness :
    handleCatch (some (fun _ _ => some .timeoutError)) none .breakerError =
      .timeoutError ∧
    handleCatch (some (fun _ _ => none)) none .timeoutError =
      handleCatch none none .timeoutError ∧
    exceptIsOk (doFetchModel DEFAULTS (fun _ => .error .breakerError)) =
      exceptIsOk (circuitExecute DEFAULTS (fun _ => .error .breakerError)).result :=
  c9_theorem (fun _ _ => some .timeoutError) none .breakerError .timeoutError
    .timeoutError rfl (fun _ _ => none) rfl DEFAULTS
    (fun _ => .error .breakerError)

/-- Unfolding of association-list lookup at a cons cell. -/
theorem lookup_cons_eq (k q : String) (v1 : JValue)
    (rest : List (String × JValue)) :
    List.lookup q ((k, v1) :: rest) =
      if q = k then some v1 else List.lookup q rest := by
  by_cases h : q = k
  · simp [List.lookup, h]
  · have hb : (q == k) = false := by simp [h]
    simp [List.lookup, hb, h]

/-- Key lookup in an association list extended by one trailing entry. -/
theorem lookup_append_single (o : List (String × JValue)) (k q : String)
    (v : JValue) :
    (o ++ [(k, v)]).lookup q =
      match o.lookup q with
      | some w => some w
      | none => if q = k then some v else none := by
  induction o with
  | nil =>
    rw [List.nil_append, lookup_cons_eq]
    by_cases h : q = k <;> simp [h, List.lookup]
  | cons p rest ih =>
    obtain ⟨k1, v1⟩ := p
    rw [List.cons_append, lookup_cons_eq, lookup_cons_eq]
    by_cases hq : q = k1
    · simp [hq]
    · simp only [hq, if_false, ih, if_neg hq]

/-- Key lookup after replacing the entries holding key `k` by `(k, v)`. -/
theorem lookup_setkey_map (o : List (String × JValue)) (k q : String)
    (v : JValue) :
    (o.map (fun p => if p.1 == k then (k, v) else p)).lookup q =
      match o.lookup q with
      | some w => if q = k then some v else some w
      | none => none := by
  induction o with
  | nil => rfl
  | cons p rest ih =>
    obtain ⟨k1, v1⟩ := p
    simp only [List.map_cons]
    dsimp only
    by_cases hk1 : k1 = k
    · subst hk1
      simp only [beq_self_eq_true, if_true]
      rw [lookup_cons_eq, lookup_cons_eq]
      by_cases hq : q = k1
      · simp [hq]
      · simp only [if_neg hq, ih]
    · have hb : (k1 == k) = false := by simp [hk1]
      simp only [hb, Bool.false_eq_true, if_false]
      rw [lookup_cons_eq, lookup_cons_eq]
      by_cases hq : q = k1
      · subst hq
        simp [if_neg hk1]
      · simp only [if_neg hq, ih]

/-- Claim C10: the `RequestInit` merge performed by `doGlobalFetch` forces
the `redirect` field to `follow`, overriding any caller-supplied redirect
mode, and preserves every other caller-supplied `RequestInit` field. -/
theorem c10_theorem (init : List (String × JValue)) (q : String)
    (hq : ¬ q = "redirect") :
    (useInitMerge init).lookup "redirect" = some (JValue.jstr "follow") ∧
    (useInitMerge init).lookup q = init.lookup q := by
  unfold useInitMerge objSet
  by_cases hs : (init.lookup "redirect").isSome
  · rw [if_pos hs]
    obtain ⟨w, hw⟩ := Option.isSome_iff_exists.mp hs
    constructor
    · rw [lookup_setkey_map, hw]
      simp
    · rw [lookup_setkey_map]
      cases hlq : init.lookup q with
      | none => rfl
      | some w2 => simp [hq]
  · rw [if_neg hs]
    constructor
    · rw [lookup_append_single]
      cases hlr : init.lookup "redirect" with
      | some w =>
        rw [hlr] at hs
        simp at hs
      | none => simp
    · rw [lookup_append_single]
      cases hlq : init.lookup q with
      | some w => rfl
      | none => simp [hq]

/-- Witness for C10: the concrete caller init with a caller-supplied
redirect mode; `redirect` is overridden and `method` is preserved. -/
theorem c10_theorem_witness :
    (useInitMerge c10CexInit).lookup "redirect" =
      some (JValue.jstr "follow") ∧
    (useInitMerge c10CexInit).lookup "method" = c10CexInit.lookup "method" :=
  c10_theorem c10CexInit "method" (by decide)

end SmooFetch
